import Mathlib

/-!
Shallow embedding of the StratIQ deviation-detection and insight-synthesis
pipeline (app/analysis/deviations.py, app/features/extraction.py,
app/insights/recommendations.py, app/macro/review.py).

Modelling conventions:
- Python floats are modelled as rationals (ℚ); arithmetic is exact.
- `None` and absent dict keys are modelled with `Option`.
- `round(x, 4)` and `round(x)` use round-half-to-even (`rhe`), as Python does;
  binary floating-point representation effects are not modelled.
- pandas dataframes are modelled as lists of rows; aggregations are list
  folds. Sorting is modelled with a stable insertion sort; pandas
  `sort_values` uses an unstable sort, but only the relative order of
  distinct match indices is ever observable downstream, so this difference
  is invisible to every property proved here.
-/

/-- Round half to even (the rounding mode of Python `round`). -/
def rhe (q : ℚ) : ℤ :=
  let f := ⌊q⌋
  let r := q - (f : ℚ)
  if r < 1/2 then f
  else if 1/2 < r then f + 1
  else if f % 2 = 0 then f else f + 1

/-- Model of Python `round(x, 4)` used on metric values. -/
def round4 (q : ℚ) : ℚ := ((rhe (q * 10000) : ℤ) : ℚ) / 10000

/-- Mean of a list of rationals (the guarded call sites only use it on
nonempty lists). -/
def meanQ (l : List ℚ) : ℚ := l.sum / (l.length : ℚ)

-- Thresholds from app/analysis/deviations.py lines 10-12.
def DROP_PCT : ℚ := 15/100
def RISE_PCT : ℚ := 15/100
def MIN_BASELINE : ℚ := 1/100

/-- `pct_change` (deviations.py lines 15-23): percent change from baseline
to recent, `none` if an input is absent or the baseline is too small. -/
def pct_change (baseline recent : Option ℚ) : Option ℚ :=
  match baseline, recent with
  | none, _ => none
  | _, none => none
  | some b, some r => if |b| < MIN_BASELINE then none else some ((r - b) / b)

/-- The metric columns of the normalized dataset. -/
inductive Metric where
  | kills | deaths | assists | damage_dealt | kast | rounds_won | rounds_played
deriving DecidableEq, Repr

/-- Metrics scanned by `detect_deviations` (deviations.py line 33). -/
def overallMetrics : List Metric :=
  [Metric.kills, Metric.deaths, Metric.assists, Metric.damage_dealt,
   Metric.kast, Metric.rounds_won]

/-- Metrics scanned by `phase_deviations` (deviations.py line 74). -/
def phaseMetricsList : List Metric :=
  [Metric.damage_dealt, Metric.kast, Metric.kills, Metric.deaths]

/-- Phases scanned by `phase_deviations` (deviations.py line 69). -/
def phasesList : List String := ["early", "mid", "late"]

inductive Direction where
  | drop | rise
deriving DecidableEq, Repr

/-- One entry of the `detect_deviations` result list. -/
structure Deviation where
  metric : Metric
  baseline : ℚ
  recent : ℚ
  pct_change : ℚ
  direction : Direction
deriving DecidableEq, Repr

/-- One entry of the `phase_deviations` result list. -/
structure PhaseDeviation where
  phase : String
  metric : Metric
  baseline : ℚ
  recent : ℚ
  pct_change : ℚ
  direction : Direction
deriving DecidableEq, Repr

/-- The comparison dict consumed by the detectors: each field models one
key of the `baseline_vs_recent` dict (absent key = `none`); metric dicts
map metric names to values, phase dicts map phase names to metric dicts. -/
structure BvRDict where
  baseline : Option (Metric → Option ℚ)
  recent : Option (Metric → Option ℚ)
  baseline_by_phase : Option (String → Option (Metric → Option ℚ))
  recent_by_phase : Option (String → Option (Metric → Option ℚ))

/-- `d.get(m)` on an optional metric dict, where a missing dict behaves as
the empty dict (Python `x.get(k) or ` empty). -/
def dictGet (d : Option (Metric → Option ℚ)) (m : Metric) : Option ℚ :=
  (d.getD (fun _ => none)) m

/-- Loop body of `detect_deviations` (deviations.py lines 35-61) for one
metric: missing values default to 0.0 unless both sides are missing. -/
def devFor (bOpt rOpt : Option ℚ) (m : Metric) : Option Deviation :=
  if bOpt = none ∧ rOpt = none then none
  else
    let b := bOpt.getD 0
    let r := rOpt.getD 0
    match pct_change (some b) (some r) with
    | none => none
    | some pct =>
      let higher_is_better : Bool := decide (m ≠ Metric.deaths)
      let significant_drop : Bool :=
        if higher_is_better then decide (pct ≤ -DROP_PCT) else decide (pct ≥ RISE_PCT)
      let significant_rise : Bool :=
        if higher_is_better then decide (pct ≥ RISE_PCT) else decide (pct ≤ -DROP_PCT)
      if significant_drop || significant_rise then
        some { metric := m, baseline := round4 b, recent := round4 r,
               pct_change := round4 pct,
               direction := if significant_drop then Direction.drop else Direction.rise }
      else none

/-- `detect_deviations` (deviations.py lines 26-62). -/
def detect_deviations (x : BvRDict) : List Deviation :=
  overallMetrics.filterMap (fun m =>
    devFor (dictGet x.baseline m) (dictGet x.recent m) m)

/-- Loop body of `phase_deviations` (deviations.py lines 74-102) for one
phase and metric: only negative outcomes are emitted. -/
def phaseDevFor (ph : String) (bOpt rOpt : Option ℚ) (m : Metric) : Option PhaseDeviation :=
  if bOpt = none ∧ rOpt = none then none
  else
    let b := bOpt.getD 0
    let r := rOpt.getD 0
    match pct_change (some b) (some r) with
    | none => none
    | some pct =>
      let higher_is_better : Bool := decide (m ≠ Metric.deaths)
      if higher_is_better && decide (pct ≤ -DROP_PCT) then
        some { phase := ph, metric := m, baseline := round4 b, recent := round4 r,
               pct_change := round4 pct, direction := Direction.drop }
      else if !higher_is_better && decide (pct ≥ RISE_PCT) then
        some { phase := ph, metric := m, baseline := round4 b, recent := round4 r,
               pct_change := round4 pct, direction := Direction.rise }
      else none

/-- `phase_deviations` (deviations.py lines 65-103). -/
def phase_deviations (x : BvRDict) : List PhaseDeviation :=
  List.flatten (phasesList.map (fun ph =>
    let bp := (x.baseline_by_phase.getD (fun _ => none)) ph
    let rp := (x.recent_by_phase.getD (fun _ => none)) ph
    phaseMetricsList.filterMap (fun m =>
      phaseDevFor ph (dictGet bp m) (dictGet rp m) m)))

def stableLabel : String := "stable"
def decliningLabel : String := "declining"
def improvingLabel : String := "improving"

/-- `detect_trend` (deviations.py lines 106-118): first-half vs second-half
mean comparison with a scale-aware stability band. -/
def detect_trend (rolling_values : List ℚ) : Option String :=
  if rolling_values.length < 2 then none
  else
    let n := rolling_values.length
    let first_half := meanQ (rolling_values.take (n / 2))
    let second_half := meanQ (rolling_values.drop (n / 2))
    if |second_half - first_half| < MIN_BASELINE * (|first_half| + 1) then some stableLabel
    else if second_half < first_half then some decliningLabel
    else some improvingLabel

/-! ## Feature extraction (app/features/extraction.py) -/

/-- One row of the normalized match-stats table (see the loader contract:
`player_id`, `match_id`, `game_phase` plus numeric metric columns; `map`
and the LoL-only columns are meaningful when the dataset has them). -/
structure Row where
  player_id : String
  match_id : String
  game_phase : String
  map : String
  kills : ℚ
  deaths : ℚ
  assists : ℚ
  damage_dealt : ℚ
  kast : ℚ
  rounds_won : ℚ
  rounds_played : ℚ
  gold_diff_at_phase : ℚ
  objective_score : ℚ
deriving DecidableEq, Repr

/-- Column projection for the numeric metric columns. -/
def metricCol (m : Metric) (r : Row) : ℚ :=
  match m with
  | Metric.kills => r.kills
  | Metric.deaths => r.deaths
  | Metric.assists => r.assists
  | Metric.damage_dealt => r.damage_dealt
  | Metric.kast => r.kast
  | Metric.rounds_won => r.rounds_won
  | Metric.rounds_played => r.rounds_played

/-- extraction.py line 10. -/
def MATCH_ORDER : List String := ["m1", "m2", "m3", "m4", "m5"]

/-- `_match_index` (extraction.py lines 13-18): position in `MATCH_ORDER`,
0 for an unknown id (`list.index` raising `ValueError`). -/
def matchIndex (match_id : String) : Nat :=
  match MATCH_ORDER.indexOf? match_id with
  | some i => i
  | none => 0

/-- Stable insertion into a sorted list (elements equal under `le` keep
their original relative order). -/
def insertLe (le : α → α → Bool) (x : α) : List α → List α
  | [] => [x]
  | y :: ys => if le x y then x :: y :: ys else y :: insertLe le x ys

/-- Stable insertion sort. -/
def sortLe (le : α → α → Bool) : List α → List α
  | [] => []
  | x :: xs => insertLe le x (sortLe le xs)

/-- Keep the first occurrence of each element (order of `unique()`). -/
def dedupFirstAux (seen : List String) : List String → List String
  | [] => []
  | x :: xs => if x ∈ seen then dedupFirstAux seen xs
               else x :: dedupFirstAux (x :: seen) xs

def dedupFirst (l : List String) : List String := dedupFirstAux [] l

def rowIdxLe (a b : Row) : Bool := decide (matchIndex a.match_id ≤ matchIndex b.match_id)

def idIdxLe (a b : String) : Bool := decide (matchIndex a ≤ matchIndex b)

/-- The rows of one player (`df[df["player_id"] == player_id]`). -/
def playerRows (df : List Row) (player_id : String) : List Row :=
  df.filter (fun r => r.player_id == player_id)

/-- The distinct match ids of a player, sorted by `_match_index`
(extraction.py line 55). -/
def playerMatchIds (df : List Row) (player_id : String) : List String :=
  sortLe idIdxLe (dedupFirst ((sortLe rowIdxLe (playerRows df player_id)).map
    (fun r => r.match_id)))

/-- Python list slice `l[-n:]`; note `l[-0:]` is the whole list. -/
def pyLastN (l : List α) (n : Nat) : List α :=
  if n = 0 then l else l.drop (l.length - n)

/-- `recent_ids` (extraction.py lines 56-60): the last `n` distinct match
ids, or all of them when there are no more than `n`. -/
def recentIdsOf (df : List Row) (player_id : String) (n : Nat) : List String :=
  if (playerMatchIds df player_id).length ≤ n then playerMatchIds df player_id
  else pyLastN (playerMatchIds df player_id) n

/-- `baseline_ids` (extraction.py lines 56-61): the remaining distinct
match ids (`set(match_ids) - recent_ids`). -/
def baselineIdsOf (df : List Row) (player_id : String) (n : Nat) : List String :=
  if (playerMatchIds df player_id).length ≤ n then []
  else (playerMatchIds df player_id).filter
    (fun m => decide (m ∉ pyLastN (playerMatchIds df player_id) n))

/-- Mean of one metric column over a list of rows. -/
def colMean (rows : List Row) (m : Metric) : ℚ := meanQ (rows.map (metricCol m))

/-- The value of the `baseline_vs_recent` dict when the player has rows.
Metric dicts always carry all seven numeric columns, so they are total
functions; per-phase dicts have a key only for phases with rows. -/
structure BvROut where
  player_id : String
  baseline : Metric → ℚ
  recent : Metric → ℚ
  baseline_by_phase : String → Option (Metric → ℚ)
  recent_by_phase : String → Option (Metric → ℚ)
  baseline_matches : List String
  recent_matches : List String

/-- Per-phase aggregate (`groupby("game_phase")[numeric_cols].mean().round(4)`),
read as a phase-keyed dict. -/
def phaseAgg (rows : List Row) (ph : String) : Option (Metric → ℚ) :=
  let g := rows.filter (fun r => r.game_phase == ph)
  if g.isEmpty then none else some (fun m => round4 (colMean g m))

/-- `baseline_vs_recent` (extraction.py lines 41-85): split the rows of
one player into baseline and recent match sets and aggregate both. `none`
models the empty dict returned for a player with no rows. -/
def baseline_vs_recent (df : List Row) (player_id : String)
    (recent_n_matches : Nat) : Option BvROut :=
  let player := playerRows df player_id
  if player = [] then none
  else
    let sorted := sortLe rowIdxLe player
    let recent_ids := recentIdsOf df player_id recent_n_matches
    let baseline_ids := baselineIdsOf df player_id recent_n_matches
    let baseline_df := sorted.filter (fun r => decide (r.match_id ∈ baseline_ids))
    let recent_df := sorted.filter (fun r => decide (r.match_id ∈ recent_ids))
    let baseline_agg : Metric → ℚ :=
      if baseline_df.isEmpty then fun _ => 0 else fun m => colMean baseline_df m
    let recent_agg : Metric → ℚ :=
      if recent_df.isEmpty then baseline_agg else fun m => colMean recent_df m
    some
      { player_id := player_id
        baseline := baseline_agg
        recent := recent_agg
        baseline_by_phase :=
          if baseline_df.isEmpty then fun _ => none else fun ph => phaseAgg baseline_df ph
        recent_by_phase :=
          if recent_df.isEmpty then fun _ => none else fun ph => phaseAgg recent_df ph
        baseline_matches := baseline_ids
        recent_matches := recent_ids }

/-- View a `baseline_vs_recent` result as the dict the detectors consume
(`none` = the empty dict: every key lookup misses). -/
def toDict (o : Option BvROut) : BvRDict :=
  match o with
  | none => { baseline := none, recent := none,
              baseline_by_phase := none, recent_by_phase := none }
  | some out =>
      { baseline := some (fun m => some (out.baseline m))
        recent := some (fun m => some (out.recent m))
        baseline_by_phase := some (fun ph =>
          (out.baseline_by_phase ph).map (fun f => fun m => some (f m)))
        recent_by_phase := some (fun ph =>
          (out.recent_by_phase ph).map (fun f => fun m => some (f m))) }

/-! ## Recommendations (app/insights/recommendations.py).
Apostrophes inside string literals are written with the escape \x27. -/

def zeroCh : Char := Char.ofNat 48

/-- Left-pad a digit string with zeros to the given width. -/
def padZeros (s : String) (n : Nat) : String :=
  String.mk (List.replicate (n - s.length) zeroCh) ++ s

def minusSign : String := "-"
def dotSign : String := "."

/-- Fixed-point decimal formatting of a rational with `prec` digits,
modelling Python format specs like `:.1f` (round half to even). -/
def fmtFixed (prec : Nat) (q : ℚ) : String :=
  let scaled := rhe (q * ((10 : ℚ) ^ prec))
  let sign := if scaled < 0 then minusSign else ""
  let a := scaled.natAbs
  if prec = 0 then sign ++ toString a
  else sign ++ toString (a / 10 ^ prec) ++ dotSign ++ padZeros (toString (a % 10 ^ prec)) prec

/-- `_pct_str` (recommendations.py lines 19-20). -/
def pctStr (pct : ℚ) : String := toString (rhe (pct * 100)).natAbs ++ "%"

/-- `METRIC_LABELS.get(metric, metric)` (recommendations.py lines 9-16);
`rounds_played` is not in the dict, so it falls back to the raw name. -/
def metricLabel (m : Metric) : String :=
  match m with
  | Metric.kills => "kills per phase"
  | Metric.deaths => "deaths per phase"
  | Metric.assists => "assists per phase"
  | Metric.damage_dealt => "damage dealt"
  | Metric.kast => "KAST (kill/assist/survive/trade)"
  | Metric.rounds_won => "rounds won"
  | Metric.rounds_played => "rounds_played"

/-- One recommendation item (`{ "data": ..., "insight": ... }`). -/
structure Rec where
  data : String
  insight : String
deriving DecidableEq, Repr

/-- Body of the overall-deviation loop (recommendations.py lines 35-56):
the item produced for one Deviation, if any. A deaths "rise" (deaths
fell) produces no item. -/
def overallRec (player_id : String) (d : Deviation) : Option Rec :=
  let label := metricLabel d.metric
  let ps := pctStr d.pct_change
  match d.direction with
  | Direction.drop =>
    if d.metric = Metric.deaths then
      some
        { data := player_id ++ "\x27s deaths increased by " ++ ps ++
            " in recent matches vs baseline (" ++ fmtFixed 1 d.baseline ++
            " → " ++ fmtFixed 1 d.recent ++ ")."
          insight := "Focus on positioning and life preservation. When " ++ player_id ++
            " dies more often, the team loses round control. Review death timings and avoid unnecessary peeks or solo holds." }
    else
      some
        { data := player_id ++ "\x27s " ++ label ++ " dropped by " ++ ps ++
            " in recent matches (baseline " ++ fmtFixed 2 d.baseline ++
            " → recent " ++ fmtFixed 2 d.recent ++ ")."
          insight := "Recent form in " ++ label ++ " is below " ++ player_id ++
            "\x27s usual level. Recommend VOD review of recent games and role-specific drills to restore consistency." }
  | Direction.rise =>
    if d.metric ≠ Metric.deaths then
      some
        { data := player_id ++ "\x27s " ++ label ++ " is up " ++ ps ++
            " vs baseline (" ++ fmtFixed 2 d.baseline ++ " → " ++
            fmtFixed 2 d.recent ++ ")."
          insight := "Positive trend in " ++ label ++
            ". Reinforce what\x27s working and keep this in the game plan." }
    else none

/-- Body of the phase-deviation loop (recommendations.py lines 58-77):
only damage drops, KAST drops and deaths rises have templates. -/
def phaseRec (player_id : String) (d : PhaseDeviation) : Option Rec :=
  let ps := pctStr d.pct_change
  let ph := d.phase
  if d.direction = Direction.drop ∧ d.metric = Metric.damage_dealt then
    some
      { data := player_id ++ "\x27s " ++ ph ++ "-game damage dropped by " ++ ps ++
          " compared to baseline (" ++ fmtFixed 0 d.baseline ++ " → " ++
          fmtFixed 0 d.recent ++ ")."
        insight := player_id ++ "\x27s " ++ ph ++
          "-game impact has slipped. Consider comp adjustments or mid-game role assignments (e.g. resource priority, site takes) to get them more involved in key fights." }
  else if d.direction = Direction.drop ∧ d.metric = Metric.kast then
    some
      { data := player_id ++ "\x27s " ++ ph ++ "-game KAST is down " ++ ps ++ " vs baseline."
        insight := "In " ++ ph ++ " game, " ++ player_id ++
          " is less often getting a kill, assist, or trade. Review " ++ ph ++
          "-game positioning and comms so they\x27re in positions to contribute or trade." }
  else if d.direction = Direction.rise ∧ d.metric = Metric.deaths then
    some
      { data := player_id ++ "\x27s " ++ ph ++ "-game deaths are up " ++ ps ++ " vs baseline."
        insight := "Deaths in " ++ ph ++ " game are hurting rounds. Tighten up " ++ ph ++
          "-game discipline: avoid isolated deaths and prioritize staying alive for key objectives." }
  else none

/-- The generic positive fallback item (recommendations.py lines 79-83). -/
def fallbackRec (player_id : String) : Rec :=
  { data := player_id ++ "\x27s recent metrics are in line with baseline."
    insight := "No major drop-offs detected. Keep current practice and focus on opponent-specific prep." }

/-- One loop iteration of `generate_recommendations`: append the item the
branch produced, if any. -/
def appendRec {α : Type} (f : α → Option Rec) (acc : List Rec) (d : α) : List Rec :=
  match f d with
  | some r => acc ++ [r]
  | none => acc

/-- `generate_recommendations` (recommendations.py lines 23-84). The
`comparison` argument is accepted and ignored exactly as in the source. -/
def generate_recommendations (player_id : String) (_comparison : BvRDict)
    (deviations : List Deviation) (phase_devs : List PhaseDeviation) : List Rec :=
  let recs := deviations.foldl (appendRec (overallRec player_id)) []
  let recs := phase_devs.foldl (appendRec (phaseRec player_id)) recs
  if recs.isEmpty then [fallbackRec player_id] else recs

/-! ## Macro review (app/macro/review.py) -/

structure AgendaItem where
  title : String
  data : String
  insight : String
deriving DecidableEq, Repr

/-- One record of `phase_group.reset_index()` (review.py lines 40-49). -/
structure PhaseSummary where
  game_phase : String
  damage_dealt : ℚ
  kast : ℚ
  deaths : ℚ
  rounds_won : ℚ
  rounds_played : ℚ
  winrate : Option ℚ
deriving DecidableEq, Repr

/-- One record of `player_group.reset_index()` (review.py lines 91-95). -/
structure PlayerSummary where
  player_id : String
  deaths : ℚ
  kast : ℚ
  damage : ℚ
deriving DecidableEq, Repr

structure Supporting where
  phase_summary : List PhaseSummary
  player_summary : List PlayerSummary
deriving DecidableEq, Repr

/-- Result of `generate_macro_review`; `supporting = none` models the
literal empty supporting dict of the zero-row branch. -/
structure MacroReview where
  match_id : String
  game : String
  agenda : List AgendaItem
  supporting : Option Supporting
deriving DecidableEq, Repr

/-- `_fmt_pct` (review.py lines 23-24). -/
def fmtPct (x : ℚ) : String := toString (rhe (x * 100)) ++ "%"

def strLe (a b : String) : Bool := decide (a ≤ b)

/-- Group keys of a string column, in the sorted order pandas `groupby`
uses (alphabetical; for the categorical phase column made by the loader the category
order is also alphabetical). -/
def groupKeys (col : List String) : List String := sortLe strLe (dedupFirst col)

/-- `idxmin` over an optional-valued column: first key attaining the
minimum among defined values, skipping `none` (NaN). -/
def argminOpt : List (String × Option ℚ) → Option (String × ℚ)
  | [] => none
  | (k, v) :: rest =>
    match argminOpt rest, v with
    | none, none => none
    | none, some x => some (k, x)
    | some (k2, x2), none => some (k2, x2)
    | some (k2, x2), some x => if x ≤ x2 then some (k, x) else some (k2, x2)

/-- Phase aggregate row of `phase_group` (review.py lines 40-49). -/
def phaseSummaryOf (mdf : List Row) (ph : String) : PhaseSummary :=
  let g := mdf.filter (fun r => r.game_phase == ph)
  let rw := (g.map (fun r => r.rounds_won)).sum
  let rp := (g.map (fun r => r.rounds_played)).sum
  { game_phase := ph
    damage_dealt := meanQ (g.map (fun r => r.damage_dealt))
    kast := meanQ (g.map (fun r => r.kast))
    deaths := meanQ (g.map (fun r => r.deaths))
    rounds_won := rw
    rounds_played := rp
    winrate := if rp = 0 then none else some (rw / rp) }

/-- Map aggregate winrate (review.py lines 75-78). -/
def mapWinrate (mdf : List Row) (mp : String) : Option ℚ :=
  let g := mdf.filter (fun r => r.map == mp)
  let rw := (g.map (fun r => r.rounds_won)).sum
  let rp := (g.map (fun r => r.rounds_played)).sum
  if rp = 0 then none else some (rw / rp)

/-- Player aggregate row of `player_group` (review.py lines 91-95). -/
def playerSummaryOf (mdf : List Row) (pid : String) : PlayerSummary :=
  let g := mdf.filter (fun r => r.player_id == pid)
  { player_id := pid
    deaths := meanQ (g.map (fun r => r.deaths))
    kast := meanQ (g.map (fun r => r.kast))
    damage := meanQ (g.map (fun r => r.damage_dealt)) }

def midLabel : String := "mid"
def lolLabel : String := "lol"

/-- `generate_macro_review` (review.py lines 27-135). The two Bool
arguments model the dataframe-level column-presence tests
`"map" in mdf.columns` (line 74) and `"gold_diff_at_phase" in mdf.columns`
(line 109). -/
def generate_macro_review (df : List Row) (match_id : String) (game : String)
    (hasMapCol hasGoldCol : Bool) : MacroReview :=
  let g := game.toLower
  let mdf := df.filter (fun r => r.match_id == match_id)
  if mdf = [] then
    { match_id := match_id, game := g, agenda := [], supporting := none }
  else
    let phaseKeys := groupKeys (mdf.map (fun r => r.game_phase))
    let phase_group := phaseKeys.map (fun ph => phaseSummaryOf mdf ph)
    let phaseItems :=
      if phase_group.any (fun s => s.winrate.isSome) then
        match argminOpt (phase_group.map (fun s => (s.game_phase, s.winrate))) with
        | some (p, wr) =>
          [{ title := "Phase focus"
             data := "Team winrate is lowest in " ++ p ++ " phase (" ++ fmtPct wr ++ ")."
             insight := "Rewatch key " ++ p ++
               "-phase decisions (rotations, setup timing). Tighten your default plan to avoid giving away momentum in that window." }]
        | none => []
      else
        match argminOpt (phase_group.map (fun s => (s.game_phase, some s.kast))) with
        | some (p, k) =>
          [{ title := "Phase focus"
             data := "Team KAST is lowest in " ++ p ++ " phase (" ++ fmtPct k ++ ")."
             insight := "Your " ++ p ++
               "-phase is where trades/assists/survivability break down. Emphasize pairing and trade protocols during this window." }]
        | none => []
    let mapItems :=
      if hasMapCol then
        let mapKeys := groupKeys (mdf.map (fun r => r.map))
        let map_group := mapKeys.map (fun mp => (mp, mapWinrate mdf mp))
        if map_group.any (fun s => s.2.isSome) then
          match argminOpt map_group with
          | some (mp, wr) =>
            [{ title := "Map note"
               data := "On " ++ mp ++ ", round winrate was " ++ fmtPct wr ++ " in this match."
               insight := "Build a short map-specific checklist: pistol plan, early defaults, and mid-round pivot triggers. Make sure everyone knows the first two contingency calls." }]
          | none => []
        else []
      else []
    let playerKeys := groupKeys (mdf.map (fun r => r.player_id))
    let player_group := playerKeys.map (fun pid => playerSummaryOf mdf pid)
    let playerItems :=
      match argminOpt (player_group.map (fun s => (s.player_id, some s.kast))) with
      | some (p, wk) =>
        let dp := ((player_group.find? (fun s => s.player_id == p)).map
          (fun s => s.deaths)).getD 0
        [{ title := "Isolated deaths / trades"
           data := p ++ " had the lowest KAST in the match (" ++ fmtPct wk ++
             ") with " ++ fmtFixed 1 dp ++ " deaths per phase."
           insight := "Review " ++ p ++
             "\x27s deaths: were they traded? If not, adjust spacing and assign a consistent trade partner in the phase where it happens most." }]
      | none => []
    let lolItems :=
      if g = lolLabel ∧ hasGoldCol then
        if midLabel ∈ phaseKeys then
          let midRows := mdf.filter (fun r => r.game_phase == midLabel)
          let gold_mid := meanQ (midRows.map (fun r => r.gold_diff_at_phase))
          let obj_mid := meanQ (midRows.map (fun r => r.objective_score))
          if gold_mid < 0 then
            [{ title := "Objective setup (LoL)"
               data := "Mid-game gold diff averages " ++ fmtFixed 0 gold_mid ++
                 " (behind), with objective score " ++ fmtFixed 1 obj_mid ++ "."
               insight := "Your mid-game setups are costing you. Sync base timers ~45s before objectives, invest deeper vision, and avoid overcommitting to low-probability contests." }]
          else []
        else []
      else []
    { match_id := match_id
      game := g
      agenda := phaseItems ++ mapItems ++ playerItems ++ lolItems
      supporting := some { phase_summary := phase_group, player_summary := player_group } }

/-! ## Claim C2: specification of `pct_change` -/

/-- C2: `pct_change b r` is undefined iff `b` is absent, `r` is absent, or
`|b| < 0.01`; in every other case it equals exactly `(r - b) / b`. -/
theorem pct_change_spec (b r : Option ℚ) :
    (pct_change b r = none ↔
      b = none ∨ r = none ∨ ∃ bv, b = some bv ∧ |bv| < MIN_BASELINE) ∧
    (∀ bv rv, b = some bv → r = some rv → ¬ |bv| < MIN_BASELINE →
      pct_change b r = some ((rv - bv) / bv)) := by
  constructor
  · cases b with
    | none => simp [pct_change]
    | some bv =>
      cases r with
      | none => simp [pct_change]
      | some rv =>
        by_cases h : |bv| < MIN_BASELINE <;> simp [pct_change, h]
  · intro bv rv hb hr hlt
    subst hb; subst hr
    simp [pct_change, hlt]

/-- Witness for C2 at baseline 10, recent 12. -/
theorem pct_change_spec_witness :
    pct_change (some 10) (some 12) = some (((12 : ℚ) - 10) / 10) :=
  (pct_change_spec (some 10) (some 12)).2 10 12 rfl rfl
    (by norm_num [MIN_BASELINE])

/-! ## Claim C8: specification of `detect_trend` -/

/-- C8: `detect_trend` is undefined below 2 points; otherwise it floor-splits
the series, compares the half means with the scale-aware stability band,
and the four concrete examples from the spec evaluate as stated. -/
theorem detect_trend_spec :
    (∀ l : List ℚ, l.length < 2 → detect_trend l = none) ∧
    (∀ l : List ℚ, 2 ≤ l.length →
      detect_trend l =
        (if |meanQ (l.drop (l.length / 2)) - meanQ (l.take (l.length / 2))| <
            MIN_BASELINE * (|meanQ (l.take (l.length / 2))| + 1) then some stableLabel
         else if meanQ (l.drop (l.length / 2)) < meanQ (l.take (l.length / 2)) then
           some decliningLabel
         else some improvingLabel)) ∧
    detect_trend [(10 : ℚ), 10, 10, 10] = some stableLabel ∧
    detect_trend [(10 : ℚ), 8, 6, 4] = some decliningLabel ∧
    detect_trend [(4 : ℚ), 6, 8, 10] = some improvingLabel ∧
    detect_trend [(5 : ℚ)] = none := by
  refine ⟨?_, ?_, ?_, ?_, ?_, ?_⟩
  · intro l h
    simp [detect_trend, h]
  · intro l h
    simp [detect_trend, Nat.not_lt.mpr h]
  · norm_num [detect_trend, meanQ, MIN_BASELINE]
  · norm_num [detect_trend, meanQ, MIN_BASELINE]
  · norm_num [detect_trend, meanQ, MIN_BASELINE]
  · norm_num [detect_trend]

/-- Witness for C8: the short-series hypothesis at the empty list. -/
theorem detect_trend_spec_witness : detect_trend ([] : List ℚ) = none :=
  detect_trend_spec.1 [] (by decide)

/-! ## Claim C9: `generate_macro_review` on a match with zero rows -/

/-- C9: with zero rows for the match id, `generate_macro_review` returns an
empty agenda and empty supporting data (and, being a total function, never
raises). -/
theorem generate_macro_review_empty (df : List Row) (match_id game : String)
    (hasMapCol hasGoldCol : Bool)
    (h : df.filter (fun r => r.match_id == match_id) = []) :
    generate_macro_review df match_id game hasMapCol hasGoldCol =
      { match_id := match_id, game := game.toLower, agenda := [], supporting := none } := by
  simp only [generate_macro_review, h]
  simp

/-- Witness for C9 on the empty dataset. -/
theorem generate_macro_review_empty_witness :
    generate_macro_review [] midLabel lolLabel true true =
      { match_id := midLabel, game := lolLabel.toLower, agenda := [], supporting := none } :=
  generate_macro_review_empty [] midLabel lolLabel true true rfl

/-! ## Claim C10: `baseline_vs_recent` for a player with no rows -/

/-- C10: a player id with no rows yields the empty mapping (modelled as
`none`): no fields at all, and no error. -/
theorem baseline_vs_recent_no_rows (df : List Row) (player_id : String) (n : Nat)
    (h : playerRows df player_id = []) :
    baseline_vs_recent df player_id n = none := by
  simp [baseline_vs_recent, h]

/-- Witness for C10 on the empty dataset. -/
theorem baseline_vs_recent_no_rows_witness :
    baseline_vs_recent [] midLabel 2 = none :=
  baseline_vs_recent_no_rows [] midLabel 2 rfl

/-! ## Helper lemmas about the deviation loop bodies -/

theorem devFor_metric {bOpt rOpt : Option ℚ} {m : Metric} {e : Deviation}
    (h : devFor bOpt rOpt m = some e) : e.metric = m := by
  simp only [devFor] at h
  repeat' split at h
  all_goals first
    | (cases Option.some.inj h; rfl)
    | simp at h

theorem devFor_defined {bOpt rOpt : Option ℚ} {m : Metric} {e : Deviation}
    (h : devFor bOpt rOpt m = some e) :
    ¬(bOpt = none ∧ rOpt = none) ∧
    pct_change (some (bOpt.getD 0)) (some (rOpt.getD 0)) ≠ none := by
  simp only [devFor] at h
  split at h
  · simp at h
  · next hne =>
    refine ⟨hne, ?_⟩
    split at h
    · simp at h
    · rename_i pct heq
      simp [heq]

/-- Significance evaluation of the deaths branch of the loop body: a
percent change at or above the rise threshold is classified as a
performance drop, at or below the negated drop threshold as a rise. -/
theorem devFor_deaths_eval {bOpt rOpt : Option ℚ} {pct : ℚ}
    (hne : ¬(bOpt = none ∧ rOpt = none))
    (hp : pct_change (some (bOpt.getD 0)) (some (rOpt.getD 0)) = some pct) :
    (RISE_PCT ≤ pct →
      devFor bOpt rOpt Metric.deaths =
        some ⟨Metric.deaths, round4 (bOpt.getD 0), round4 (rOpt.getD 0),
              round4 pct, Direction.drop⟩) ∧
    (pct ≤ -DROP_PCT →
      devFor bOpt rOpt Metric.deaths =
        some ⟨Metric.deaths, round4 (bOpt.getD 0), round4 (rOpt.getD 0),
              round4 pct, Direction.rise⟩) := by
  constructor
  · intro hge
    simp [devFor, hne, hp, hge]
  · intro hle
    have hnot : ¬ (RISE_PCT ≤ pct) := by
      rw [RISE_PCT]; rw [DROP_PCT] at hle; linarith
    simp [devFor, hne, hp, hle, hnot]

/-- The concrete comparison of the deaths-polarity example: baseline
deaths 10, recent deaths 12, no other metric present. -/
def exDeathsDict : BvRDict :=
  { baseline := some (fun m => if m = Metric.deaths then some 10 else none)
    recent := some (fun m => if m = Metric.deaths then some 12 else none)
    baseline_by_phase := none
    recent_by_phase := none }

theorem devFor_none_none (m : Metric) : devFor none none m = none := by
  simp [devFor]

theorem detect_deviations_exDeathsDict :
    detect_deviations exDeathsDict =
      [{ metric := Metric.deaths, baseline := 10, recent := 12,
         pct_change := 1/5, direction := Direction.drop }] := by
  have h10 : round4 (10 : ℚ) = 10 := by norm_num [round4, rhe]
  have h12 : round4 (12 : ℚ) = 12 := by norm_num [round4, rhe]
  have h15 : round4 ((1 : ℚ)/5) = 1/5 := by norm_num [round4, rhe]
  have hdev : devFor (some 10) (some 12) Metric.deaths =
      some { metric := Metric.deaths, baseline := 10, recent := 12,
             pct_change := 1/5, direction := Direction.drop } := by
    have h := (@devFor_deaths_eval (some 10) (some 12) (1/5)
        (by simp) (by norm_num [pct_change, MIN_BASELINE])).1
      (by norm_num [RISE_PCT])
    simp only [Option.getD_some] at h
    rw [h10, h12, h15] at h
    exact h
  simp [detect_deviations, overallMetrics, dictGet, exDeathsDict,
    devFor_none_none, hdev]

/-- The deaths percent change of a comparison, with the both-missing
skip and zero defaulting of the loop (deviations.py lines 36-42). -/
def deathsPctOf (x : BvRDict) : Option ℚ :=
  if dictGet x.baseline Metric.deaths = none ∧ dictGet x.recent Metric.deaths = none
  then none
  else pct_change (some ((dictGet x.baseline Metric.deaths).getD 0))
    (some ((dictGet x.recent Metric.deaths).getD 0))

/-! ## Claim C1: inverted polarity of the deaths metric -/

/-- C1: on baseline deaths 10 and recent deaths 12 (pct change +0.20),
`detect_deviations` returns exactly one Deviation, for deaths with
direction drop; in general, whenever the deaths percent change is defined,
a change at or above 0.15 yields a drop entry and at or below -0.15 a rise
entry, with baseline, recent and pct change rounded to 4 decimals. -/
theorem detect_deviations_deaths_polarity :
    detect_deviations exDeathsDict =
      [{ metric := Metric.deaths, baseline := 10, recent := 12,
         pct_change := 1/5, direction := Direction.drop }] ∧
    ∀ (x : BvRDict) (pct : ℚ), deathsPctOf x = some pct →
      (RISE_PCT ≤ pct →
        Deviation.mk Metric.deaths (round4 ((dictGet x.baseline Metric.deaths).getD 0))
          (round4 ((dictGet x.recent Metric.deaths).getD 0)) (round4 pct) Direction.drop
          ∈ detect_deviations x) ∧
      (pct ≤ -DROP_PCT →
        Deviation.mk Metric.deaths (round4 ((dictGet x.baseline Metric.deaths).getD 0))
          (round4 ((dictGet x.recent Metric.deaths).getD 0)) (round4 pct) Direction.rise
          ∈ detect_deviations x) := by
  refine ⟨detect_deviations_exDeathsDict, ?_⟩
  intro x pct hp
  unfold deathsPctOf at hp
  split at hp
  · simp at hp
  · next hne =>
    constructor
    · intro hge
      simp only [detect_deviations]
      exact List.mem_filterMap.mpr
        ⟨Metric.deaths, by simp [overallMetrics], (devFor_deaths_eval hne hp).1 hge⟩
    · intro hle
      simp only [detect_deviations]
      exact List.mem_filterMap.mpr
        ⟨Metric.deaths, by simp [overallMetrics], (devFor_deaths_eval hne hp).2 hle⟩

/-- Witness for C1: the general rule applied to the concrete example. -/
theorem detect_deviations_deaths_polarity_witness :
    Deviation.mk Metric.deaths (round4 ((dictGet exDeathsDict.baseline Metric.deaths).getD 0))
      (round4 ((dictGet exDeathsDict.recent Metric.deaths).getD 0)) (round4 (1/5))
      Direction.drop ∈ detect_deviations exDeathsDict :=
  (detect_deviations_deaths_polarity.2 exDeathsDict (1/5)
      (by
        simp only [deathsPctOf, dictGet, exDeathsDict]
        rw [if_neg (by simp)]
        norm_num [pct_change, MIN_BASELINE])).1
    (by norm_num [RISE_PCT])

/-! ## Claim C6: per-metric uniqueness and definedness -/

/-- C6: `detect_deviations` returns at most one entry per metric (hence
never both a drop and a rise for one metric), and every returned entry has
a defined percent change: the metric is not absent on both sides, and the
percent change of the defaulted values is not `none` (so the effective
baseline is at least 0.01 in absolute value). -/
theorem detect_deviations_per_metric (x : BvRDict) :
    (∀ e1, e1 ∈ detect_deviations x → ∀ e2, e2 ∈ detect_deviations x →
      e1.metric = e2.metric → e1 = e2) ∧
    (∀ e, e ∈ detect_deviations x →
      ¬(dictGet x.baseline e.metric = none ∧ dictGet x.recent e.metric = none) ∧
      pct_change (some ((dictGet x.baseline e.metric).getD 0))
        (some ((dictGet x.recent e.metric).getD 0)) ≠ none) := by
  constructor
  · intro e1 h1 e2 h2 hm
    simp only [detect_deviations, List.mem_filterMap] at h1 h2
    obtain ⟨m1, _, hf1⟩ := h1
    obtain ⟨m2, _, hf2⟩ := h2
    have t1 := devFor_metric hf1
    have t2 := devFor_metric hf2
    have hmm : m1 = m2 := by rw [← t1, ← t2, hm]
    subst hmm
    rw [hf1] at hf2
    exact Option.some.inj hf2
  · intro e he
    simp only [detect_deviations, List.mem_filterMap] at he
    obtain ⟨m, _, hf⟩ := he
    have hm := devFor_metric hf
    rw [hm]
    exact devFor_defined hf

/-- Witness for C6: the definedness part at the concrete deaths example
and its returned entry. -/
theorem detect_deviations_per_metric_witness :
    ¬(dictGet exDeathsDict.baseline Metric.deaths = none ∧
      dictGet exDeathsDict.recent Metric.deaths = none) ∧
    pct_change (some ((dictGet exDeathsDict.baseline Metric.deaths).getD 0))
      (some ((dictGet exDeathsDict.recent Metric.deaths).getD 0)) ≠ none :=
  (detect_deviations_per_metric exDeathsDict).2
    ⟨Metric.deaths, 10, 12, 1/5, Direction.drop⟩
    (by simp [detect_deviations_exDeathsDict])

/-! ## Rounding bounds needed for the phase-deviation claim -/

theorem floor_le_rhe (q : ℚ) : ⌊q⌋ ≤ rhe q := by
  simp only [rhe]
  repeat' split
  all_goals omega

theorem le_rhe_of_le {k : ℤ} {q : ℚ} (h : (k : ℚ) ≤ q) : k ≤ rhe q :=
  le_trans (Int.le_floor.mpr h) (floor_le_rhe q)

theorem rhe_le_of_le {q : ℚ} {k : ℤ} (h : q ≤ (k : ℚ)) : rhe q ≤ k := by
  have hf : ⌊q⌋ ≤ k := by
    calc ⌊q⌋ ≤ ⌊(k : ℚ)⌋ := Int.floor_mono h
    _ = k := Int.floor_intCast k
  have hfq : (⌊q⌋ : ℚ) ≤ q := Int.floor_le q
  simp only [rhe]
  split
  · exact hf
  · next h2 =>
    have hlt : (⌊q⌋ : ℚ) < q := by linarith [not_lt.mp h2]
    have : (⌊q⌋ : ℚ) < (k : ℚ) := lt_of_lt_of_le hlt h
    have : ⌊q⌋ < k := by exact_mod_cast this
    split
    · omega
    · split
      · exact hf
      · omega

theorem round4_ge_of_ge {q : ℚ} (h : RISE_PCT ≤ q) : RISE_PCT ≤ round4 q := by
  rw [RISE_PCT] at h ⊢
  have h1 : ((1500 : ℤ) : ℚ) ≤ q * 10000 := by push_cast; linarith
  have h2 := le_rhe_of_le h1
  have h3 : ((1500 : ℤ) : ℚ) ≤ ((rhe (q * 10000) : ℤ) : ℚ) := by exact_mod_cast h2
  rw [round4]
  push_cast at h3
  linarith

theorem round4_le_of_le {q : ℚ} (h : q ≤ -DROP_PCT) : round4 q ≤ -DROP_PCT := by
  rw [DROP_PCT] at h ⊢
  have h1 : q * 10000 ≤ ((-1500 : ℤ) : ℚ) := by push_cast; linarith
  have h2 := rhe_le_of_le h1
  have h3 : ((rhe (q * 10000) : ℤ) : ℚ) ≤ ((-1500 : ℤ) : ℚ) := by exact_mod_cast h2
  rw [round4]
  push_cast at h3
  linarith

/-- Everything the phase loop body guarantees about an emitted entry. -/
theorem phaseDevFor_spec {ph : String} {bOpt rOpt : Option ℚ} {m : Metric}
    {e : PhaseDeviation} (h : phaseDevFor ph bOpt rOpt m = some e) :
    e.phase = ph ∧ e.metric = m ∧
    (m = Metric.deaths → e.direction = Direction.rise ∧ RISE_PCT ≤ e.pct_change) ∧
    (m ≠ Metric.deaths → e.direction = Direction.drop ∧ e.pct_change ≤ -DROP_PCT) := by
  simp only [phaseDevFor] at h
  split at h
  · simp at h
  · split at h
    · simp at h
    · rename_i pct heq
      split at h
      · rename_i hc
        simp only [Bool.and_eq_true, decide_eq_true_eq] at hc
        cases Option.some.inj h
        refine ⟨rfl, rfl, ?_, ?_⟩
        · intro hm; exact absurd hm hc.1
        · intro _; exact ⟨rfl, round4_le_of_le hc.2⟩
      · split at h
        · rename_i hc2
          simp only [Bool.and_eq_true, Bool.not_eq_eq_eq_not, Bool.not_true,
            decide_eq_false_iff_not, not_not, decide_eq_true_eq, ge_iff_le] at hc2
          cases Option.some.inj h
          refine ⟨rfl, rfl, ?_, ?_⟩
          · intro _; exact ⟨rfl, round4_ge_of_ge hc2.2⟩
          · intro hm; exact absurd hc2.1 hm
        · simp at h

/-! ## Claim C5: phase deviations report only negative outcomes -/

/-- C5: every entry of `phase_deviations` is over phases early/mid/late
and metrics damage_dealt/kast/kills/deaths; a non-deaths entry is always a
drop with pct change at most -0.15, and a deaths entry is always a rise
with pct change at least 0.15 — no positive phase swing is ever
reported. -/
theorem phase_deviations_negative_only (x : BvRDict) :
    ∀ e, e ∈ phase_deviations x →
      e.phase ∈ phasesList ∧ e.metric ∈ phaseMetricsList ∧
      (e.metric = Metric.deaths →
        e.direction = Direction.rise ∧ RISE_PCT ≤ e.pct_change) ∧
      (e.metric ≠ Metric.deaths →
        e.direction = Direction.drop ∧ e.pct_change ≤ -DROP_PCT) := by
  intro e he
  simp only [phase_deviations, List.mem_flatten, List.mem_map] at he
  obtain ⟨sub, ⟨ph, hph, rfl⟩, hesub⟩ := he
  simp only [List.mem_filterMap] at hesub
  obtain ⟨m, hm, hf⟩ := hesub
  obtain ⟨hphase, hmetric, hdeaths, hother⟩ := phaseDevFor_spec hf
  refine ⟨?_, ?_, ?_, ?_⟩
  · rw [hphase]; exact hph
  · rw [hmetric]; exact hm
  · rw [hmetric]; exact hdeaths
  · rw [hmetric]; exact hother

theorem phaseDevFor_none_none (ph : String) (m : Metric) :
    phaseDevFor ph none none m = none := by
  simp [phaseDevFor]

/-- The concrete comparison for the phase-deviation witness: mid-game
damage 100 at baseline, 80 recently. -/
def exPhaseDict : BvRDict :=
  { baseline := none
    recent := none
    baseline_by_phase := some (fun ph =>
      if ph = midLabel then
        some (fun m => if m = Metric.damage_dealt then some 100 else none)
      else none)
    recent_by_phase := some (fun ph =>
      if ph = midLabel then
        some (fun m => if m = Metric.damage_dealt then some 80 else none)
      else none) }

theorem phaseDevFor_exMid :
    phaseDevFor ("mid") (some 100) (some 80) Metric.damage_dealt =
      some { phase := ("mid"), metric := Metric.damage_dealt, baseline := 100,
             recent := 80, pct_change := -(1/5), direction := Direction.drop } := by
  norm_num [phaseDevFor, pct_change, MIN_BASELINE, DROP_PCT, RISE_PCT, round4, rhe]
  exact ⟨fun h => Option.noConfusion h, fun h => Metric.noConfusion h⟩

theorem phase_deviations_exPhaseDict :
    phase_deviations exPhaseDict =
      [{ phase := midLabel, metric := Metric.damage_dealt, baseline := 100,
         recent := 80, pct_change := -(1/5), direction := Direction.drop }] := by
  simp [phase_deviations, phasesList, phaseMetricsList, dictGet, exPhaseDict,
    midLabel, phaseDevFor_none_none, phaseDevFor_exMid, List.filterMap_cons,
    List.filterMap_nil]

/-- Witness for C5 at the concrete mid-game damage drop. -/
theorem phase_deviations_negative_only_witness :
    (midLabel ∈ phasesList ∧ Metric.damage_dealt ∈ phaseMetricsList ∧
      (Metric.damage_dealt = Metric.deaths →
        Direction.drop = Direction.rise ∧ RISE_PCT ≤ -(1/5)) ∧
      (Metric.damage_dealt ≠ Metric.deaths →
        Direction.drop = Direction.drop ∧ -(1/5) ≤ -DROP_PCT)) :=
  phase_deviations_negative_only exPhaseDict
    { phase := midLabel, metric := Metric.damage_dealt, baseline := 100,
      recent := 80, pct_change := -(1/5), direction := Direction.drop }
    (by simp [phase_deviations_exPhaseDict])

/-! ## Claim C3 (corrected): fallback behaviour of the recommendation
generator -/

theorem foldl_optAppend {α : Type} (f : α → Option Rec) (l : List α) (init : List Rec) :
    l.foldl (appendRec f) init = init ++ l.filterMap f := by
  induction l generalizing init with
  | nil => simp
  | cons x xs ih =>
    cases h : f x <;> simp [List.foldl_cons, appendRec, h, ih]

def exPlayer : String := "p1"

def emptyBvRDict : BvRDict :=
  { baseline := none, recent := none, baseline_by_phase := none, recent_by_phase := none }

/-- A deviation the overall loop emits for deaths that fell by 20%:
direction rise with inverted polarity. No phrasing template matches it. -/
def exDeathsRise : Deviation :=
  { metric := Metric.deaths, baseline := 10, recent := 8,
    pct_change := -(1/5), direction := Direction.rise }

/-- Counterexample to C3 as stated: with the nonempty deviation list
`[exDeathsRise]` (and no phase deviations), `generate_recommendations`
still returns exactly the fallback item, so the fallback is not emitted
only when both input lists are empty. -/
theorem generate_recommendations_fallback_cx :
    generate_recommendations exPlayer emptyBvRDict [exDeathsRise] [] =
      [fallbackRec exPlayer] ∧
    ([exDeathsRise] : List Deviation) ≠ [] := by
  constructor
  · simp [generate_recommendations, appendRec, overallRec, exDeathsRise]
  · simp

/-- C3 (amended): output order is overall template items first, then phase
template items; the single fallback item is emitted iff no template item
was generated from either list (both lists empty is sufficient but not
necessary: entries with no template — an overall deaths rise, or a phase
entry other than a damage/kast drop or a deaths rise — also leave the
output empty); with both lists empty the result is exactly the fallback
item, whose insight is the no-major-drop-offs message. -/
theorem generate_recommendations_order_fallback (player_id : String)
    (comparison : BvRDict) (deviations : List Deviation)
    (phase_devs : List PhaseDeviation) :
    (generate_recommendations player_id comparison deviations phase_devs =
      if deviations.filterMap (overallRec player_id) ++
          phase_devs.filterMap (phaseRec player_id) = []
      then [fallbackRec player_id]
      else deviations.filterMap (overallRec player_id) ++
        phase_devs.filterMap (phaseRec player_id)) ∧
    (deviations = [] → phase_devs = [] →
      generate_recommendations player_id comparison deviations phase_devs =
        [fallbackRec player_id]) ∧
    (fallbackRec player_id).insight =
      "No major drop-offs detected. Keep current practice and focus on opponent-specific prep." := by
  have hg : generate_recommendations player_id comparison deviations phase_devs =
      if deviations.filterMap (overallRec player_id) ++
          phase_devs.filterMap (phaseRec player_id) = []
      then [fallbackRec player_id]
      else deviations.filterMap (overallRec player_id) ++
        phase_devs.filterMap (phaseRec player_id) := by
    simp only [generate_recommendations, foldl_optAppend, List.nil_append,
      List.isEmpty_iff]
  refine ⟨hg, ?_, rfl⟩
  intro h1 h2
  subst h1; subst h2
  simp [hg]

/-- Witness for C3 (amended): both lists empty yields exactly the
fallback item. -/
theorem generate_recommendations_order_fallback_witness :
    generate_recommendations exPlayer emptyBvRDict [] [] = [fallbackRec exPlayer] :=
  (generate_recommendations_order_fallback exPlayer emptyBvRDict [] []).2.1 rfl rfl

/-! ## Membership lemmas for the splitter -/

theorem mem_insertLe {α : Type} {le : α → α → Bool} {x a : α} {l : List α} :
    a ∈ insertLe le x l ↔ a = x ∨ a ∈ l := by
  induction l with
  | nil => simp [insertLe]
  | cons y ys ih =>
    by_cases h : le x y
    · simp [insertLe, h]
    · simp [insertLe, h, ih]
      tauto

theorem mem_sortLe {α : Type} {le : α → α → Bool} {a : α} {l : List α} :
    a ∈ sortLe le l ↔ a ∈ l := by
  induction l with
  | nil => simp [sortLe]
  | cons x xs ih => simp [sortLe, mem_insertLe, ih]

theorem mem_dedupFirstAux {l : List String} :
    ∀ {seen : List String} {a : String},
      a ∈ dedupFirstAux seen l ↔ (a ∈ l ∧ a ∉ seen) := by
  induction l with
  | nil => intro seen a; simp [dedupFirstAux]
  | cons x xs ih =>
    intro seen a
    by_cases h : x ∈ seen
    · rw [show dedupFirstAux seen (x :: xs) = dedupFirstAux seen xs from by
        simp [dedupFirstAux, h]]
      rw [ih]
      constructor
      · rintro ⟨h1, h2⟩
        exact ⟨List.mem_cons_of_mem _ h1, h2⟩
      · rintro ⟨h1, h2⟩
        rcases List.mem_cons.mp h1 with rfl | h1
        · exact absurd h h2
        · exact ⟨h1, h2⟩
    · rw [show dedupFirstAux seen (x :: xs) = x :: dedupFirstAux (x :: seen) xs from by
        simp [dedupFirstAux, h]]
      constructor
      · intro hmem
        rcases List.mem_cons.mp hmem with rfl | hmem
        · exact ⟨List.mem_cons_self _ _, h⟩
        · obtain ⟨h1, h2⟩ := ih.mp hmem
          exact ⟨List.mem_cons_of_mem _ h1, fun hs => h2 (List.mem_cons_of_mem _ hs)⟩
      · rintro ⟨h1, h2⟩
        rcases List.mem_cons.mp h1 with rfl | h1
        · exact List.mem_cons_self _ _
        · by_cases hax : a = x
          · subst hax; exact List.mem_cons_self _ _
          · refine List.mem_cons_of_mem _ (ih.mpr ⟨h1, fun hs => ?_⟩)
            rcases List.mem_cons.mp hs with h' | h'
            · exact hax h'
            · exact h2 h'

theorem mem_dedupFirst {l : List String} {a : String} :
    a ∈ dedupFirst l ↔ a ∈ l := by
  simp [dedupFirst, mem_dedupFirstAux]

theorem mem_playerMatchIds {df : List Row} {player_id : String} {m : String} :
    m ∈ playerMatchIds df player_id ↔
      m ∈ (playerRows df player_id).map (fun r => r.match_id) := by
  simp [playerMatchIds, mem_sortLe, mem_dedupFirst, List.mem_map]

theorem pyLastN_subset {α : Type} (l : List α) (n : Nat) : pyLastN l n ⊆ l := by
  unfold pyLastN
  split
  · exact fun _ h => h
  · exact List.drop_subset _ _

theorem ids_disjoint (df : List Row) (player_id : String) (n : Nat) (m : String) :
    ¬(m ∈ baselineIdsOf df player_id n ∧ m ∈ recentIdsOf df player_id n) := by
  rintro ⟨hb, hr⟩
  simp only [baselineIdsOf, recentIdsOf] at hb hr
  by_cases hlen : (playerMatchIds df player_id).length ≤ n
  · simp [hlen] at hb
  · simp only [if_neg hlen] at hb hr
    rw [List.mem_filter] at hb
    exact of_decide_eq_true hb.2 hr

theorem ids_union (df : List Row) (player_id : String) (n : Nat) (m : String) :
    (m ∈ baselineIdsOf df player_id n ∨ m ∈ recentIdsOf df player_id n) ↔
      m ∈ playerMatchIds df player_id := by
  simp only [baselineIdsOf, recentIdsOf]
  by_cases hlen : (playerMatchIds df player_id).length ≤ n
  · simp [hlen]
  · simp only [if_neg hlen]
    constructor
    · rintro (hb | hr)
      · exact (List.mem_filter.mp hb).1
      · exact pyLastN_subset _ _ hr
    · intro hm
      by_cases hr : m ∈ pyLastN (playerMatchIds df player_id) n
      · exact Or.inr hr
      · exact Or.inl (List.mem_filter.mpr ⟨hm, decide_eq_true hr⟩)

theorem ids_small (df : List Row) (player_id : String) (n : Nat)
    (h : (playerMatchIds df player_id).length ≤ n) :
    baselineIdsOf df player_id n = [] ∧
      recentIdsOf df player_id n = playerMatchIds df player_id := by
  simp [baselineIdsOf, recentIdsOf, h]

/-! ## Claim C7: the splitter partitions the match set -/

/-- C7: for a player with rows, `baseline_vs_recent` yields disjoint
baseline and recent match sets whose union is exactly the set of the
distinct match identifiers of the player; with at most `n` distinct matches the
baseline set is empty and the recent set is the full (deduplicated,
index-sorted) match list. -/
theorem baseline_vs_recent_partition (df : List Row) (player_id : String) (n : Nat)
    (h : playerRows df player_id ≠ []) :
    ∃ out, baseline_vs_recent df player_id n = some out ∧
      (∀ m, ¬(m ∈ out.baseline_matches ∧ m ∈ out.recent_matches)) ∧
      (∀ m, (m ∈ out.baseline_matches ∨ m ∈ out.recent_matches) ↔
        m ∈ (playerRows df player_id).map (fun r => r.match_id)) ∧
      ((playerMatchIds df player_id).length ≤ n →
        out.baseline_matches = [] ∧
          out.recent_matches = playerMatchIds df player_id) := by
  have hmain : ∃ out, baseline_vs_recent df player_id n = some out ∧
      out.baseline_matches = baselineIdsOf df player_id n ∧
      out.recent_matches = recentIdsOf df player_id n := by
    simp only [baseline_vs_recent]
    rw [if_neg h]
    exact ⟨_, rfl, rfl, rfl⟩
  obtain ⟨out, heq, hb, hr⟩ := hmain
  refine ⟨out, heq, ?_, ?_, ?_⟩
  · intro m
    rw [hb, hr]
    exact ids_disjoint df player_id n m
  · intro m
    rw [hb, hr, ids_union df player_id n m]
    exact mem_playerMatchIds
  · intro hlen
    rw [hb, hr]
    exact ids_small df player_id n hlen

/-- A two-row, two-match dataset for one player. -/
def exRow1 : Row :=
  { player_id := exPlayer, match_id := "m1", game_phase := "early", map := "A"
    kills := 1, deaths := 2, assists := 3, damage_dealt := 100, kast := 1/2
    rounds_won := 4, rounds_played := 8, gold_diff_at_phase := 0, objective_score := 0 }

def exRow2 : Row :=
  { player_id := exPlayer, match_id := "m2", game_phase := "mid", map := "A"
    kills := 2, deaths := 1, assists := 1, damage_dealt := 150, kast := 3/4
    rounds_won := 5, rounds_played := 8, gold_diff_at_phase := 0, objective_score := 0 }

def exDF : List Row := [exRow1, exRow2]

/-- Witness for C7 at the two-match dataset with a window of 2. -/
theorem baseline_vs_recent_partition_witness :
    ∃ out, baseline_vs_recent exDF exPlayer 2 = some out ∧
      (∀ m, ¬(m ∈ out.baseline_matches ∧ m ∈ out.recent_matches)) ∧
      (∀ m, (m ∈ out.baseline_matches ∨ m ∈ out.recent_matches) ↔
        m ∈ (playerRows exDF exPlayer).map (fun r => r.match_id)) ∧
      ((playerMatchIds exDF exPlayer).length ≤ 2 →
        out.baseline_matches = [] ∧
          out.recent_matches = playerMatchIds exDF exPlayer) :=
  baseline_vs_recent_partition exDF exPlayer 2
    (by simp [playerRows, exDF, exRow1, exPlayer])

/-! ## Claim C4: an all-recent split produces no deviations -/

theorem devFor_zero_baseline (rOpt : Option ℚ) (m : Metric) :
    devFor (some 0) rOpt m = none := by
  have h0 : pct_change (some (0 : ℚ)) (some (rOpt.getD 0)) = none := by
    norm_num [pct_change, MIN_BASELINE]
  simp [devFor, h0]

theorem phaseDevFor_zero_baseline (ph : String) (rOpt : Option ℚ) (m : Metric) :
    phaseDevFor ph none rOpt m = none := by
  cases rOpt with
  | none => simp [phaseDevFor]
  | some rv =>
    have h0 : pct_change (some (0 : ℚ)) (some rv) = none := by
      norm_num [pct_change, MIN_BASELINE]
    simp [phaseDevFor, h0]

/-- C4: when all distinct matches of a player fit in the recent window,
the baseline aggregate is zero-filled, the per-phase baseline dict is
empty, and running both detectors on the result yields no deviation at
all: the near-zero-baseline guard suppresses every percent change. -/
theorem baseline_vs_recent_empty_baseline (df : List Row) (player_id : String) (n : Nat)
    (h1 : playerRows df player_id ≠ [])
    (h2 : (playerMatchIds df player_id).length ≤ n) :
    ∃ out, baseline_vs_recent df player_id n = some out ∧
      out.baseline = (fun _ => 0) ∧
      (∀ ph, out.baseline_by_phase ph = none) ∧
      detect_deviations (toDict (some out)) = [] ∧
      phase_deviations (toDict (some out)) = [] := by
  have hbid : baselineIdsOf df player_id n = [] := (ids_small df player_id n h2).1
  simp only [baseline_vs_recent]
  rw [if_neg h1]
  refine ⟨_, rfl, ?_, ?_, ?_, ?_⟩
  · simp [hbid]
  · simp [hbid]
  · simp [toDict, detect_deviations, overallMetrics, dictGet, hbid,
      devFor_zero_baseline, List.filterMap_cons, List.filterMap_nil]
  · simp [phase_deviations, phasesList, phaseMetricsList, toDict, dictGet, hbid,
      phaseDevFor_zero_baseline, List.filterMap_cons, List.filterMap_nil]

/-- Witness for C4: both matches of the example dataset fit in the
window of 2. -/
theorem baseline_vs_recent_empty_baseline_witness :
    ∃ out, baseline_vs_recent exDF exPlayer 2 = some out ∧
      out.baseline = (fun _ => 0) ∧
      (∀ ph, out.baseline_by_phase ph = none) ∧
      detect_deviations (toDict (some out)) = [] ∧
      phase_deviations (toDict (some out)) = [] :=
  baseline_vs_recent_empty_baseline exDF exPlayer 2
    (by simp [playerRows, exDF, exRow1, exPlayer])
    (by decide)
